import Mathlib

/-!
Shallow embedding of `pyiceberg/catalog/rest.py` (the REST catalog client):
the error-taxonomy mapper, the retry coordinator, the config merge, token
resolution, the identifier codec and credential parsing, together with
theorems settling the frozen claims about this module.

Python strings are modelled as `String` where only equality and
concatenation matter, and as `List Char` (`PyStr`) where the code indexes,
splits or joins them.  Python dicts whose claims only concern lookups are
modelled as functions `String → Option String` with `dict.update`
overriding pointwise.  Exception classes are modelled by the inductive
`ExcKind`; exception messages are carried separately where a claim needs
them.
-/

namespace RestCatalog

/-- The exception classes raised by `rest.py` (from `pyiceberg.exceptions`
plus the builtin `NotImplementedError` and `ValueError`).  `restError`
stands for `RESTError`, the generic protocol error. -/
inductive ExcKind where
  | authorizationExpired
  | badRequest
  | commitFailed
  | commitStateUnknown
  | forbidden
  | namespaceAlreadyExists
  | noSuchNamespace
  | noSuchTable
  | oauthError
  | restError
  | serverError
  | serviceUnavailable
  | tableAlreadyExists
  | unauthorized
  | notImplementedError
  | valueError
  deriving DecidableEq, Repr

/-- The status-code-to-exception-class selection of
`RestCatalog._handle_non_200_response` (rest.py lines 349-375): the
per-operation `error_handler` dict is consulted first, then the default
`elif` chain, in the source's order (422 is tested before 419). -/
def selectException (error_handler : Nat → Option ExcKind) (code : Nat) : ExcKind :=
  match error_handler code with
  | some e => e
  | none =>
    if code = 400 then ExcKind.badRequest
    else if code = 401 then ExcKind.unauthorized
    else if code = 403 then ExcKind.forbidden
    else if code = 422 then ExcKind.restError
    else if code = 419 then ExcKind.authorizationExpired
    else if code = 501 then ExcKind.notImplementedError
    else if code = 503 then ExcKind.serviceUnavailable
    else if 500 ≤ code ∧ code < 600 then ExcKind.serverError
    else ExcKind.restError

/-- The `{404: NoSuchTableError}` handler passed by `load_table` (and by
`drop_table`). -/
def load_table_error_handler : Nat → Option ExcKind := fun code =>
  if code = 404 then some ExcKind.noSuchTable else none

/-- The `{404: NoSuchTableError}` handler passed by `drop_table`, which
`purge_table` delegates to. -/
def drop_table_error_handler : Nat → Option ExcKind := fun code =>
  if code = 404 then some ExcKind.noSuchTable else none

/-- The `{404: NoSuchNamespaceError}` handler passed by `list_tables`. -/
def list_tables_error_handler : Nat → Option ExcKind := fun code =>
  if code = 404 then some ExcKind.noSuchNamespace else none

/-- The `{409: TableAlreadyExistsError}` handler passed by `create_table`
(and by `register_table`). -/
def create_table_error_handler : Nat → Option ExcKind := fun code =>
  if code = 409 then some ExcKind.tableAlreadyExists else none

/-- The handler passed by `_commit_table`: `{409: CommitFailedException,
500: CommitStateUnknownException, 502: CommitStateUnknownException,
504: CommitStateUnknownException}`. -/
def commit_table_error_handler : Nat → Option ExcKind := fun code =>
  if code = 409 then some ExcKind.commitFailed
  else if code = 500 then some ExcKind.commitStateUnknown
  else if code = 502 then some ExcKind.commitStateUnknown
  else if code = 504 then some ExcKind.commitStateUnknown
  else none

/-- The `{400: OAuthError, 401: OAuthError}` handler passed by
`_fetch_access_token` for the token endpoint. -/
def fetch_access_token_error_handler : Nat → Option ExcKind := fun code =>
  if code = 400 then some ExcKind.oauthError
  else if code = 401 then some ExcKind.oauthError
  else none

/-- Claim C2: the status-to-error-kind mapping honours per-operation
overrides before the default table: 404 on load_table is NoSuchTable, 404
on list_tables is NoSuchNamespace, 409 on create_table is
TableAlreadyExists, 409 on _commit_table is CommitFailed, 500/502/504 on
_commit_table are CommitStateUnknown; statuses without an override take
the default mapping (400 BadRequest, 401 Unauthorized, 403 Forbidden, 419
AuthorizationExpired, 422 RESTError, 501 NotImplemented, 503
ServiceUnavailable, other 5xx ServerError, anything else RESTError). -/
theorem claim_C2 (error_handler : Nat → Option ExcKind) (code : Nat) :
    selectException load_table_error_handler 404 = ExcKind.noSuchTable ∧
    selectException list_tables_error_handler 404 = ExcKind.noSuchNamespace ∧
    selectException create_table_error_handler 409 = ExcKind.tableAlreadyExists ∧
    selectException commit_table_error_handler 409 = ExcKind.commitFailed ∧
    selectException commit_table_error_handler 500 = ExcKind.commitStateUnknown ∧
    selectException commit_table_error_handler 502 = ExcKind.commitStateUnknown ∧
    selectException commit_table_error_handler 504 = ExcKind.commitStateUnknown ∧
    (∀ e, error_handler code = some e → selectException error_handler code = e) ∧
    (error_handler code = none →
      (code = 400 → selectException error_handler code = ExcKind.badRequest) ∧
      (code = 401 → selectException error_handler code = ExcKind.unauthorized) ∧
      (code = 403 → selectException error_handler code = ExcKind.forbidden) ∧
      (code = 419 → selectException error_handler code = ExcKind.authorizationExpired) ∧
      (code = 422 → selectException error_handler code = ExcKind.restError) ∧
      (code = 501 → selectException error_handler code = ExcKind.notImplementedError) ∧
      (code = 503 → selectException error_handler code = ExcKind.serviceUnavailable) ∧
      (500 ≤ code → code < 600 → code ≠ 501 → code ≠ 503 →
        selectException error_handler code = ExcKind.serverError) ∧
      (code ≠ 400 → code ≠ 401 → code ≠ 403 → code ≠ 419 → code ≠ 422 →
        ¬ (500 ≤ code ∧ code < 600) →
        selectException error_handler code = ExcKind.restError)) := by
  refine ⟨by decide, by decide, by decide, by decide, by decide, by decide, by decide, ?_, ?_⟩
  · intro e he
    simp [selectException, he]
  · intro hnone
    refine ⟨?_, ?_, ?_, ?_, ?_, ?_, ?_, ?_, ?_⟩ <;>
      first
        | (intro h; subst h; simp [selectException, hnone])
        | (intro h1 h2 h3 h4
           simp only [selectException, hnone]
           split_ifs <;> first | rfl | omega)
        | (intro h1 h2 h3 h4 h5 h6
           simp only [selectException, hnone]
           split_ifs <;> first | rfl | omega)

/-- Witness for C2: concrete instances with every hypothesis discharged. -/
theorem claim_C2_witness :
    selectException (fun _ => none) 400 = ExcKind.badRequest ∧
    selectException (fun _ => none) 555 = ExcKind.serverError ∧
    selectException (fun _ => none) 302 = ExcKind.restError ∧
    selectException (fun _ => some ExcKind.forbidden) 404 = ExcKind.forbidden := by
  have h400 := (claim_C2 (fun _ => none) 400).2.2.2.2.2.2.2.2 rfl
  have h555 := (claim_C2 (fun _ => none) 555).2.2.2.2.2.2.2.2 rfl
  have h302 := (claim_C2 (fun _ => none) 302).2.2.2.2.2.2.2.2 rfl
  have hov := (claim_C2 (fun _ => some ExcKind.forbidden) 404).2.2.2.2.2.2.2.1
  exact ⟨h400.1 rfl,
    h555.2.2.2.2.2.2.2.1 (by decide) (by decide) (by decide) (by decide),
    h302.2.2.2.2.2.2.2.2 (by decide) (by decide) (by decide) (by decide) (by decide) (by decide),
    hov ExcKind.forbidden rfl⟩

/-- The possible parse outcomes of an error-response body in
`_handle_non_200_response` (rest.py lines 377-399).  `genericBody` is a
payload that validates as `ErrorResponse` (carrying `type`/`message`);
`oauthBody` one that validates as `OAuthErrorResponse`; `malformedJson` a
body `response.json()` cannot decode (raising `JSONDecodeError`);
`invalidShape` valid JSON that fails the attempted model's required fields
(raising `ValidationError`).  Because the two pydantic shapes are mutually
exclusive (`error` is an object in one, a literal string in the other), a
body of one shape validated against the other also fails validation; every
constructor therefore carries the raw body text, and the shaped ones also
the pydantic error summary used when the other shape was attempted. -/
inductive RestBody where
  | genericBody (ty msg raw errs : String)
  | oauthBody (err : String) (descr uri : Option String) (raw errs : String)
  | malformedJson (raw : String)
  | invalidShape (raw errs : String)
  deriving DecidableEq, Repr

/-- The message built by the `try`/`except` block of
`_handle_non_200_response`: OAuth payloads give
`error[": " description][" (" uri ")"]` (the optional parts skipped when
absent or empty, matching Python truthiness of the walrus tests), generic
payloads give `"{type}: {message}"`, a `JSONDecodeError` gives
`"RESTError {code}: Could not decode json payload: {text}"`, and a
`ValidationError` gives
`"RESTError {code}: Received unexpected JSON Payload: {text}, errors: {errs}"`.
The OAuth shape is attempted exactly when the selected exception class is
`OAuthError`, the generic shape otherwise. -/
def responseMessage (exception : ExcKind) (code : Nat) (body : RestBody) : String :=
  match body with
  | RestBody.malformedJson raw =>
      "RESTError " ++ toString code ++ ": Could not decode json payload: " ++ raw
  | RestBody.invalidShape raw errs =>
      "RESTError " ++ toString code ++ ": Received unexpected JSON Payload: " ++ raw
        ++ ", errors: " ++ errs
  | RestBody.genericBody ty msg raw errs =>
      if exception = ExcKind.oauthError then
        "RESTError " ++ toString code ++ ": Received unexpected JSON Payload: " ++ raw
          ++ ", errors: " ++ errs
      else ty ++ ": " ++ msg
  | RestBody.oauthBody err descr uri raw errs =>
      if exception = ExcKind.oauthError then
        let r1 := match descr with
          | some d => if d = "" then err else err ++ ": " ++ d
          | none => err
        match uri with
        | some u => if u = "" then r1 else r1 ++ " (" ++ u ++ ")"
        | none => r1
      else
        "RESTError " ++ toString code ++ ": Received unexpected JSON Payload: " ++ raw
          ++ ", errors: " ++ errs

/-- `_handle_non_200_response` as a pure function: the exception class is
selected from the status code and the per-operation handler before the
body is parsed; body parsing only determines the message of the raised
exception (`raise exception(response)`). -/
def handle_non_200_response (error_handler : Nat → Option ExcKind) (code : Nat)
    (body : RestBody) : ExcKind × String :=
  let exception := selectException error_handler code
  (exception, responseMessage exception code body)

/-- Claim C5: for every status code and response body, when parsing the
error body fails (malformed JSON, or JSON missing the required fields of
the expected shape), the raised error kind is still the one determined by
the status code and the operation's override table — the kind is
independent of the body — and only the message changes: it embeds the raw
status code and the raw body text. -/
theorem claim_C5 (error_handler : Nat → Option ExcKind) (code : Nat)
    (body body' : RestBody) (raw errs : String) :
    (handle_non_200_response error_handler code body).1
        = selectException error_handler code ∧
    (handle_non_200_response error_handler code body).1
        = (handle_non_200_response error_handler code body').1 ∧
    (handle_non_200_response error_handler code (RestBody.malformedJson raw)).2
        = "RESTError " ++ toString code ++ ": Could not decode json payload: " ++ raw ∧
    (handle_non_200_response error_handler code (RestBody.invalidShape raw errs)).2
        = "RESTError " ++ toString code ++ ": Received unexpected JSON Payload: " ++ raw
            ++ ", errors: " ++ errs :=
  ⟨rfl, rfl, rfl, rfl⟩

/-- Claim C6: for the token endpoint, statuses 400 and 401 both raise
`OAuthError` rather than the generic `BadRequestError`/`UnauthorizedError`,
and the message is built from the OAuth error shape: the error code,
followed by the optional `error_description`, followed by the optional
`error_uri`. -/
theorem claim_C6 (e d u raw errs : String) (hd : d ≠ "") (hu : u ≠ "") :
    (handle_non_200_response fetch_access_token_error_handler 400
        (RestBody.oauthBody e (some d) (some u) raw errs)).1 = ExcKind.oauthError ∧
    (handle_non_200_response fetch_access_token_error_handler 401
        (RestBody.oauthBody e (some d) (some u) raw errs)).1 = ExcKind.oauthError ∧
    ExcKind.oauthError ≠ ExcKind.badRequest ∧
    ExcKind.oauthError ≠ ExcKind.unauthorized ∧
    (handle_non_200_response fetch_access_token_error_handler 400
        (RestBody.oauthBody e (some d) (some u) raw errs)).2
      = e ++ ": " ++ d ++ " (" ++ u ++ ")" ∧
    (handle_non_200_response fetch_access_token_error_handler 400
        (RestBody.oauthBody e (some d) none raw errs)).2 = e ++ ": " ++ d ∧
    (handle_non_200_response fetch_access_token_error_handler 400
        (RestBody.oauthBody e none (some u) raw errs)).2 = e ++ " (" ++ u ++ ")" ∧
    (handle_non_200_response fetch_access_token_error_handler 400
        (RestBody.oauthBody e none none raw errs)).2 = e := by
  refine ⟨rfl, rfl, by decide, by decide, ?_, ?_, ?_, rfl⟩ <;>
    simp [handle_non_200_response, responseMessage, selectException,
      fetch_access_token_error_handler, hd, hu]

/-- Witness for C6 at a concrete OAuth error payload. -/
theorem claim_C6_witness :
    (handle_non_200_response fetch_access_token_error_handler 400
        (RestBody.oauthBody ("invalid_client")
          (some ("Credentials for key invalid_key do not match"))
          (some ("https://example.test/oauth")) ("") (""))).1
      = ExcKind.oauthError ∧
    (handle_non_200_response fetch_access_token_error_handler 400
        (RestBody.oauthBody ("invalid_client")
          (some ("Credentials for key invalid_key do not match"))
          (some ("https://example.test/oauth")) ("") (""))).2
      = "invalid_client: Credentials for key invalid_key do not match"
          ++ " (https://example.test/oauth)" := by
  have h := claim_C6 ("invalid_client")
    ("Credentials for key invalid_key do not match")
    ("https://example.test/oauth") ("") ("") (by decide) (by decide)
  exact ⟨h.1, by rw [h.2.2.2.2.1]; rfl⟩

/-- Observable per-call state of the client: how many HTTP requests have
been issued on the session, and how many times `_refresh_token` has been
invoked. -/
structure CallState where
  reqCount : Nat
  refreshCount : Nat
  deriving DecidableEq, Repr

/-- A catalog operation, parameterised by the environment assigning an
HTTP status code to the n-th request issued on the session.  It returns a
result or an exception kind, threading the call state. -/
def Oper (α : Type) : Type :=
  (Nat → Nat) → CallState → Except ExcKind α × CallState

/-- The `@retry(**_RETRY_ARGS)` decorator (rest.py lines 124-134), with
tenacity semantics for `retry=retry_if_exception_type(AuthorizationExpiredError)`,
`stop=stop_after_attempt(2)`, `before_sleep=_retry_hook` and
`reraise=True`: the wrapped body is invoked; if it raises
`AuthorizationExpiredError`, `_retry_hook` calls
`rest_catalog._refresh_token()` and the body is invoked a second time,
whose outcome is returned as-is (the stop condition is reached, and
`reraise` re-raises the second exception); any other exception, or a
success, is returned immediately with no refresh. -/
def retry_with_reauth {α : Type} (op : Oper α) : Oper α := fun env s =>
  match op env s with
  | (Except.error e, s1) =>
      if e = ExcKind.authorizationExpired then
        op env (CallState.mk s1.reqCount (s1.refreshCount + 1))
      else (Except.error e, s1)
  | ok => ok

/-- One HTTP request through the session followed by
`response.raise_for_status()`: the status of the request is drawn from the
environment at the current request counter; statuses 400-599 raise
`HTTPError`, which the operation turns into the exception selected by
`_handle_non_200_response` with its per-operation handler. -/
def http_request (error_handler : Nat → Option ExcKind) : Oper Unit := fun env s =>
  let code := env s.reqCount
  let s1 := CallState.mk (s.reqCount + 1) s.refreshCount
  if 400 ≤ code ∧ code < 600 then
    (Except.error (selectException error_handler code), s1)
  else (Except.ok (), s1)

/-- `drop_table` (rest.py lines 574-585): a retry-wrapped single DELETE
request with the `{404: NoSuchTableError}` handler. -/
def drop_table_op : Oper Unit :=
  retry_with_reauth (http_request drop_table_error_handler)

/-- `purge_table` (rest.py lines 587-589): itself decorated with
`@retry(**_RETRY_ARGS)`, and its body calls `self.drop_table(...)` — which
is the already-decorated `drop_table`.  The retry wrappers therefore
nest. -/
def purge_table_op : Oper Unit :=
  retry_with_reauth drop_table_op

/-- `load_table` (rest.py lines 560-572): a retry-wrapped single GET
request with the `{404: NoSuchTableError}` handler. -/
def load_table_op : Oper Unit :=
  retry_with_reauth (http_request load_table_error_handler)

/-- The `{404: NoSuchTableError, 409: TableAlreadyExistsError}` handler
passed by `rename_table`. -/
def rename_table_error_handler : Nat → Option ExcKind := fun code =>
  if code = 404 then some ExcKind.noSuchTable
  else if code = 409 then some ExcKind.tableAlreadyExists
  else none

/-- The body of `rename_table` (rest.py lines 592-604): its own POST to
`tables/rename`, then `return self.load_table(to_identifier)` — the
already-decorated `load_table`. -/
def rename_table_body : Oper Unit := fun env s =>
  match http_request rename_table_error_handler env s with
  | (Except.ok _, s1) => load_table_op env s1
  | err => err

/-- `rename_table`: the `@retry(**_RETRY_ARGS)`-decorated body above, so
the outer wrapper nests around `load_table`'s wrapper — but only after
the rename POST itself has succeeded. -/
def rename_table_op : Oper Unit :=
  retry_with_reauth rename_table_body

/-- An environment where the 1st and 4th requests (the two rename POSTs)
succeed and every other request gets status 419. -/
def rename_load_expired_env : Nat → Nat := fun n =>
  if n = 0 ∨ n = 3 then 200 else 419

/-- An environment returning 419 (authorization expired) for the first two
requests on the session and 200 afterwards. -/
def two_expired_env : Nat → Nat := fun n => if n < 2 then 419 else 200

/-- Counterexample to C1: running `purge_table` against two consecutive
419 responses does NOT surface `AuthorizationExpiredError` after 2
attempts — a third HTTP request is issued (by the outer retry wrapper
restarting the inner, already-exhausted `drop_table` retry) and the
operation succeeds, with 3 requests and 2 token refreshes in total. -/
theorem claim_C1_counterexample :
    purge_table_op two_expired_env (CallState.mk 0 0)
      = (Except.ok (), CallState.mk 3 2) := by
  rfl

/-- Claim C1 as amended: each `@retry`-wrapped body is invoked at most
twice with one token refresh in between.  For an operation whose body
issues a single HTTP request (create/register/load/drop/list/commit and
the namespace operations): a non-error status on the first attempt
returns immediately with no refresh; a non-419 error status propagates
immediately with no refresh; a 419 status triggers exactly one refresh
and one further attempt, whose outcome is final — two consecutive 419s
yield `AuthorizationExpiredError` after exactly 2 requests, and a success
on the second attempt is returned after exactly 2 requests.  However
`purge_table`'s body calls the already-decorated `drop_table`, so both of
its wrapping retries restart the inner retry: on persistent 419 responses
`purge_table` issues 4 HTTP requests and 3 refreshes before surfacing
`AuthorizationExpiredError`.  `rename_table` also nests (its body calls
the decorated `load_table`), but its own POST receives any 419s first: on
persistent 419 responses the POST fails both of rename's attempts and
`AuthorizationExpiredError` surfaces after exactly 2 requests and 1
refresh, as the original claim states; only when the POST succeeds and
the follow-up `load_table` receives the 419s does the outer wrapper
restart the whole body — re-issuing the rename POST — surfacing
`AuthorizationExpiredError` after 6 requests and 3 refreshes. -/
theorem claim_C1 (error_handler : Nat → Option ExcKind) (env : Nat → Nat)
    (s : CallState) :
    (¬ (400 ≤ env s.reqCount ∧ env s.reqCount < 600) →
      retry_with_reauth (http_request error_handler) env s
        = (Except.ok (), CallState.mk (s.reqCount + 1) s.refreshCount)) ∧
    (400 ≤ env s.reqCount → env s.reqCount < 600 →
      selectException error_handler (env s.reqCount) ≠ ExcKind.authorizationExpired →
      retry_with_reauth (http_request error_handler) env s
        = (Except.error (selectException error_handler (env s.reqCount)),
           CallState.mk (s.reqCount + 1) s.refreshCount)) ∧
    (error_handler 419 = none → env s.reqCount = 419 → env (s.reqCount + 1) = 419 →
      retry_with_reauth (http_request error_handler) env s
        = (Except.error ExcKind.authorizationExpired,
           CallState.mk (s.reqCount + 2) (s.refreshCount + 1))) ∧
    (error_handler 419 = none → env s.reqCount = 419 →
      ¬ (400 ≤ env (s.reqCount + 1) ∧ env (s.reqCount + 1) < 600) →
      retry_with_reauth (http_request error_handler) env s
        = (Except.ok (), CallState.mk (s.reqCount + 2) (s.refreshCount + 1))) ∧
    ((∀ n, env n = 419) →
      purge_table_op env (CallState.mk 0 0)
        = (Except.error ExcKind.authorizationExpired, CallState.mk 4 3)) ∧
    ((∀ n, env n = 419) →
      rename_table_op env (CallState.mk 0 0)
        = (Except.error ExcKind.authorizationExpired, CallState.mk 2 1)) ∧
    rename_table_op rename_load_expired_env (CallState.mk 0 0)
      = (Except.error ExcKind.authorizationExpired, CallState.mk 6 3) := by
  refine ⟨?_, ?_, ?_, ?_, ?_, ?_, ?_⟩
  · intro h
    simp [retry_with_reauth, http_request, h]
  · intro h1 h2 h3
    have : (400 ≤ env s.reqCount ∧ env s.reqCount < 600) := ⟨h1, h2⟩
    simp [retry_with_reauth, http_request, this, h3]
  · intro h0 h1 h2
    have e1 : selectException error_handler 419 = ExcKind.authorizationExpired := by
      simp [selectException, h0]
    simp [retry_with_reauth, http_request, h1, h2, e1]
  · intro h0 h1 h2
    have e1 : selectException error_handler 419 = ExcKind.authorizationExpired := by
      simp [selectException, h0]
    simp [retry_with_reauth, http_request, h1, h2, e1]
  · intro hall
    have e1 : selectException drop_table_error_handler 419
        = ExcKind.authorizationExpired := by decide
    simp [purge_table_op, drop_table_op, retry_with_reauth, http_request, hall, e1]
  · intro hall
    have e1 : selectException rename_table_error_handler 419
        = ExcKind.authorizationExpired := by decide
    simp [rename_table_op, rename_table_body, load_table_op, retry_with_reauth,
      http_request, hall, e1]
  · rfl

/-- Witness for C1 at concrete inputs: a single-request operation under
two consecutive 419s stops after exactly 2 requests and 1 refresh with
`AuthorizationExpiredError`, and under 419-then-200 succeeds after 2
requests and 1 refresh; `purge_table` under persistent 419s makes 4
requests and 3 refreshes, while `rename_table` under persistent 419s
stops after 2 requests and 1 refresh. -/
theorem claim_C1_witness :
    retry_with_reauth (http_request load_table_error_handler) (fun _ => 419)
        (CallState.mk 0 0)
      = (Except.error ExcKind.authorizationExpired, CallState.mk 2 1) ∧
    retry_with_reauth (http_request load_table_error_handler) two_expired_env
        (CallState.mk 1 0)
      = (Except.ok (), CallState.mk 3 1) ∧
    purge_table_op (fun _ => 419) (CallState.mk 0 0)
      = (Except.error ExcKind.authorizationExpired, CallState.mk 4 3) ∧
    rename_table_op (fun _ => 419) (CallState.mk 0 0)
      = (Except.error ExcKind.authorizationExpired, CallState.mk 2 1) := by
  refine ⟨?_, ?_, ?_, ?_⟩
  · exact (claim_C1 load_table_error_handler (fun _ => 419) (CallState.mk 0 0)).2.2.1
      rfl rfl rfl
  · exact (claim_C1 load_table_error_handler two_expired_env (CallState.mk 1 0)).2.2.2.1
      rfl rfl (by decide)
  · exact (claim_C1 load_table_error_handler (fun _ => 419) (CallState.mk 0 0)).2.2.2.2.1
      (fun _ => rfl)
  · exact (claim_C1 load_table_error_handler (fun _ => 419) (CallState.mk 0 0)).2.2.2.2.2.1
      (fun _ => rfl)

/-- A Python `dict[str, str]`, observed through lookups
(`d.get(k)` / `k in d`). -/
def PyDict : Type := String → Option String

/-- `d.update(other)`: afterwards every key of `other` maps to its value
in `other`, and every other key keeps its value from `d`. -/
def dict_update (d other : PyDict) : PyDict := fun k =>
  match other k with
  | some v => some v
  | none => d k

/-- `d[k] = v`. -/
def dict_insert (d : PyDict) (k v : String) : PyDict := fun q =>
  if q = k then some v else d q

/-- The merge performed by `_fetch_config` (rest.py lines 325-328):
`config = config_response.defaults; config.update(self.properties);
config.update(config_response.overrides)`. -/
def fetch_config_merge (defaults properties overrides : PyDict) : PyDict :=
  dict_update (dict_update defaults properties) overrides

/-- `self.uri = config[URI]` (rest.py line 331): the base URI adopted for
all subsequent calls is the merged mapping's value at the `uri` key. -/
def fetch_config_uri (defaults properties overrides : PyDict) : Option String :=
  fetch_config_merge defaults properties overrides ("uri")

/-- The defaults mapping `{a:1, b:2}` of the spec's config-merge example. -/
def exDefaults : PyDict := fun k =>
  if k = "a" then some ("1") else if k = "b" then some ("2") else none

/-- The caller-properties mapping `{b:3, c:4}` of the example. -/
def exProps : PyDict := fun k =>
  if k = "b" then some ("3") else if k = "c" then some ("4") else none

/-- The server-overrides mapping `{a:5}` of the example. -/
def exOverrides : PyDict := fun k =>
  if k = "a" then some ("5") else none

/-- Claim C3: `_fetch_config` merges with precedence defaults <
caller-supplied properties < server overrides: every key in the overrides
takes the override value, every key in the caller properties but not in
the overrides takes the caller value, and remaining keys take the default
value; on the spec's example the result is `{a:5, b:3, c:4}`; and the
adopted base URI is the merged mapping's `uri` entry. -/
theorem claim_C3 (defaults properties overrides : PyDict) (k : String) :
    (∀ v, overrides k = some v →
      fetch_config_merge defaults properties overrides k = some v) ∧
    (overrides k = none → ∀ v, properties k = some v →
      fetch_config_merge defaults properties overrides k = some v) ∧
    (overrides k = none → properties k = none →
      fetch_config_merge defaults properties overrides k = defaults k) ∧
    (fetch_config_merge exDefaults exProps exOverrides ("a") = some ("5") ∧
     fetch_config_merge exDefaults exProps exOverrides ("b") = some ("3") ∧
     fetch_config_merge exDefaults exProps exOverrides ("c") = some ("4") ∧
     (k ≠ "a" → k ≠ "b" → k ≠ "c" →
       fetch_config_merge exDefaults exProps exOverrides k = none)) ∧
    fetch_config_uri defaults properties overrides
      = fetch_config_merge defaults properties overrides ("uri") := by
  refine ⟨?_, ?_, ?_, ⟨by decide, by decide, by decide, ?_⟩, rfl⟩
  · intro v hv
    simp [fetch_config_merge, dict_update, hv]
  · intro ho v hp
    simp [fetch_config_merge, dict_update, ho, hp]
  · intro ho hp
    simp [fetch_config_merge, dict_update, ho, hp]
  · intro h1 h2 h3
    simp [fetch_config_merge, dict_update, exDefaults, exProps, exOverrides, h1, h2, h3]

/-- Witness for C3 at concrete mappings and keys: the example dicts give
the claimed merged values, and an absent key falls through to none. -/
theorem claim_C3_witness :
    fetch_config_merge exDefaults exProps exOverrides ("a") = some ("5") ∧
    fetch_config_merge exDefaults exProps exOverrides ("b") = some ("3") ∧
    fetch_config_merge exDefaults exProps exOverrides ("c") = some ("4") ∧
    fetch_config_merge exDefaults exProps exOverrides ("warehouse") = none := by
  have h := (claim_C3 exDefaults exProps exOverrides ("warehouse")).2.2.2.1
  exact ⟨h.1, h.2.1, h.2.2.1,
    h.2.2.2 (by decide) (by decide) (by decide)⟩

/-- The session state touched by `_refresh_token`: the catalog's
properties dict and the session's `Authorization` header. -/
structure SessionState where
  properties : PyDict
  authHeader : Option String

/-- `_refresh_token(session, initial_token)` (rest.py lines 458-467): if
`initial_token is not None` it is stored as the `token` property; else if
a `credential` property exists, `_fetch_access_token` exchanges it (the
exchange modelled by the oracle `fetch`) and the result is stored as the
`token` property; afterwards, if the `token` property is present and
truthy (non-empty), the session's `Authorization` header becomes
`"Bearer {token}"`, otherwise the header is left as it was. -/
def refresh_token (fetch : String → String) (initial_token : Option String)
    (st : SessionState) : SessionState :=
  let props : PyDict :=
    match initial_token with
    | some t => dict_insert st.properties ("token") t
    | none =>
      match st.properties ("credential") with
      | some cred => dict_insert st.properties ("token") (fetch cred)
      | none => st.properties
  let auth : Option String :=
    match props ("token") with
    | some t => if t = "" then st.authHeader else some ("Bearer " ++ t)
    | none => st.authHeader
  SessionState.mk props auth

/-- The `_refresh_token` call made while establishing the session:
`_create_session` passes `self.properties.get(TOKEN)` as the initial
token (rest.py line 248). -/
def create_session_auth (fetch : String → String) (st : SessionState) : SessionState :=
  refresh_token fetch (st.properties ("token")) st

/-- The `_refresh_token` call made by the retry coordinator's
`_retry_hook` (rest.py lines 124-126): `rest_catalog._refresh_token()`,
with no initial token. -/
def retry_hook_refresh (fetch : String → String) (st : SessionState) : SessionState :=
  refresh_token fetch none st

/-- A catalog configured with both an explicit bearer token `t0` and a
credential `c`, before any request. -/
def stTokenAndCredential : SessionState :=
  SessionState.mk
    (fun k => if k = "token" then some ("t0")
      else if k = "credential" then some ("c") else none)
    none

/-- Counterexample to C4: on a token REFRESH (the `_retry_hook` path), an
explicitly supplied bearer-token property does NOT win outright — with
both a `token` property `t0` and a `credential` property present, the
credential is exchanged (here for `t1`) and overwrites the supplied
token, and the Authorization header becomes `Bearer t1`, not `Bearer t0`. -/
theorem claim_C4_counterexample :
    stTokenAndCredential.properties ("token") = some ("t0") ∧
    (retry_hook_refresh (fun _ => ("t1")) stTokenAndCredential).properties ("token")
      = some ("t1") ∧
    (retry_hook_refresh (fun _ => ("t1")) stTokenAndCredential).authHeader
      = some ("Bearer t1") ∧
    some ("Bearer t1") ≠ some ("Bearer t0") := by
  refine ⟨rfl, rfl, rfl, by decide⟩

/-- Claim C4 as amended: when ESTABLISHING a session, an explicitly
supplied bearer-token property wins outright; otherwise a credential
property, if present, is exchanged for a token; otherwise the state is
unchanged and no Authorization header is set.  When REFRESHING, no
initial token is passed, so a credential property, if present, is always
exchanged afresh — overwriting any explicitly supplied bearer token — and
only in the absence of a credential is the stored bearer-token property
re-applied; with neither, the state is unchanged. -/
theorem claim_C4 (fetch : String → String) (st : SessionState) (t c : String) :
    (st.properties ("token") = some t → t ≠ "" →
      (create_session_auth fetch st).authHeader = some ("Bearer " ++ t)) ∧
    (st.properties ("token") = none → st.properties ("credential") = some c →
      fetch c ≠ "" →
      (create_session_auth fetch st).authHeader = some ("Bearer " ++ fetch c) ∧
      (create_session_auth fetch st).properties ("token") = some (fetch c)) ∧
    (st.properties ("token") = none → st.properties ("credential") = none →
      create_session_auth fetch st = st) ∧
    (st.properties ("credential") = some c → fetch c ≠ "" →
      (retry_hook_refresh fetch st).authHeader = some ("Bearer " ++ fetch c) ∧
      (retry_hook_refresh fetch st).properties ("token") = some (fetch c)) ∧
    (st.properties ("credential") = none → st.properties ("token") = some t →
      t ≠ "" →
      (retry_hook_refresh fetch st).authHeader = some ("Bearer " ++ t)) ∧
    (st.properties ("credential") = none → st.properties ("token") = none →
      retry_hook_refresh fetch st = st) := by
  refine ⟨?_, ?_, ?_, ?_, ?_, ?_⟩
  · intro ht hne
    simp [create_session_auth, refresh_token, dict_insert, ht, hne]
  · intro ht hc hne
    constructor <;>
      simp [create_session_auth, refresh_token, dict_insert, ht, hc, hne]
  · intro ht hc
    simp [create_session_auth, refresh_token, dict_insert, ht, hc]
  · intro hc hne
    constructor <;>
      simp [retry_hook_refresh, refresh_token, dict_insert, hc, hne]
  · intro hc ht hne
    simp [retry_hook_refresh, refresh_token, dict_insert, hc, ht, hne]
  · intro hc ht
    simp [retry_hook_refresh, refresh_token, dict_insert, hc, ht]

/-- Witness for C4 at concrete states: establishing with an explicit
token sets its bearer header; establishing with only a credential
exchanges it; refreshing with a credential exchanges it. -/
theorem claim_C4_witness :
    (create_session_auth (fun _ => ("tX"))
        (SessionState.mk (fun k => if k = "token" then some ("t0") else none) none)).authHeader
      = some ("Bearer " ++ "t0") ∧
    (create_session_auth (fun _ => ("tX"))
        (SessionState.mk (fun k => if k = "credential" then some ("c") else none) none)).authHeader
      = some ("Bearer " ++ "tX") ∧
    (retry_hook_refresh (fun _ => ("t1")) stTokenAndCredential).authHeader
      = some ("Bearer " ++ "t1") := by
  refine ⟨?_, ?_, ?_⟩
  · exact (claim_C4 (fun _ => ("tX"))
      (SessionState.mk (fun k => if k = "token" then some ("t0") else none) none)
      ("t0") ("c")).1 rfl (by decide)
  · exact ((claim_C4 (fun _ => ("tX"))
      (SessionState.mk (fun k => if k = "credential" then some ("c") else none) none)
      ("t0") ("c")).2.1 rfl rfl (by decide)).1
  · exact ((claim_C4 (fun _ => ("t1")) stTokenAndCredential
      ("t0") ("c")).2.2.2.1 rfl (by decide)).1

/-- A Python string viewed as its sequence of code points, used where the
code splits, joins or indexes strings. -/
abbrev PyStr : Type := List Char

/-- `NAMESPACE_SEPARATOR = b"\x1f".decode(UTF8)` (rest.py line 121): the
unit-separator code point 0x1F. -/
def nsSep : Char := Char.ofNat 31

/-- Python `sep.join(parts)` for a one-character separator. -/
def joinSep (sep : Char) : List PyStr → PyStr
  | [] => []
  | [s] => s
  | s :: rest => s ++ sep :: joinSep sep rest

/-- Python `s.split(sep)` for a one-character separator and no maxsplit:
splits at every occurrence of `sep`; always returns at least one part. -/
def splitOnChar (sep : Char) : PyStr → List PyStr
  | [] => [[]]
  | c :: cs =>
    let r := splitOnChar sep cs
    if c = sep then [] :: r
    else (c :: r.headD []) :: r.tail

/-- `_check_valid_namespace_identifier` (rest.py lines 259-264): raises
`NoSuchNamespaceError` when the identifier tuple has fewer than one
element.  Messages are elided; only the exception kind is modelled. -/
def check_valid_namespace_identifier (identifier : List PyStr) :
    Except ExcKind (List PyStr) :=
  if identifier.length < 1 then Except.error ExcKind.noSuchNamespace
  else Except.ok identifier

/-- `_identifier_to_validated_tuple` (rest.py lines 333-337): raises
`NoSuchTableError` when the identifier tuple has at most one element. -/
def identifier_to_validated_tuple (identifier : List PyStr) :
    Except ExcKind (List PyStr) :=
  if identifier.length ≤ 1 then Except.error ExcKind.noSuchTable
  else Except.ok identifier

/-- `_split_identifier_for_path` (rest.py lines 339-343) on an identifier
tuple: validate, then return the namespace path
`NAMESPACE_SEPARATOR.join(identifier_tuple[:-1])` and the leaf
`identifier_tuple[-1]`. -/
def split_identifier_for_path (identifier : List PyStr) :
    Except ExcKind (PyStr × PyStr) :=
  match identifier_to_validated_tuple identifier with
  | Except.error e => Except.error e
  | Except.ok t => Except.ok (joinSep nsSep t.dropLast, t.getLast?.getD [])

/-- `_split_identifier_for_json` (rest.py lines 345-347): validate, then
return the namespace array `identifier_tuple[:-1]` and the name
`identifier_tuple[-1]`. -/
def split_identifier_for_json (identifier : List PyStr) :
    Except ExcKind (List PyStr × PyStr) :=
  match identifier_to_validated_tuple identifier with
  | Except.error e => Except.error e
  | Except.ok t => Except.ok (t.dropLast, t.getLast?.getD [])

/-- `splitOnChar` never returns the empty list. -/
theorem splitOnChar_ne_nil (sep : Char) (s : PyStr) : splitOnChar sep s ≠ [] := by
  cases s with
  | nil => simp [splitOnChar]
  | cons c cs =>
    simp only [splitOnChar]
    split_ifs <;> simp

/-- Splitting a separator-free string yields that single part. -/
theorem splitOnChar_not_mem (sep : Char) :
    ∀ s : PyStr, sep ∉ s → splitOnChar sep s = [s] := by
  intro s
  induction s with
  | nil => intro _; rfl
  | cons c cs ih =>
    intro h
    have hc : c ≠ sep := fun he => h (he ▸ List.mem_cons_self c cs)
    have hcs : sep ∉ cs := fun hm => h (List.mem_cons_of_mem c hm)
    simp [splitOnChar, hc, ih hcs]

/-- Splitting a string of the form `s ++ sep :: t`, with `s`
separator-free, peels off `s` as the first part. -/
theorem splitOnChar_append (sep : Char) (t : PyStr) :
    ∀ s : PyStr, sep ∉ s → splitOnChar sep (s ++ sep :: t) = s :: splitOnChar sep t := by
  intro s
  induction s with
  | nil => intro _; simp [splitOnChar]
  | cons c cs ih =>
    intro h
    have hc : c ≠ sep := fun he => h (he ▸ List.mem_cons_self c cs)
    have hcs : sep ∉ cs := fun hm => h (List.mem_cons_of_mem c hm)
    simp [splitOnChar, hc, ih hcs]

/-- Splitting undoes joining for a nonempty list of separator-free
segments. -/
theorem splitOnChar_joinSep (sep : Char) :
    ∀ l : List PyStr, l ≠ [] → (∀ s ∈ l, sep ∉ s) →
      splitOnChar sep (joinSep sep l) = l := by
  intro l
  induction l with
  | nil => intro hne _; exact absurd rfl hne
  | cons x xs ih =>
    intro _ h
    cases xs with
    | nil =>
      exact splitOnChar_not_mem sep x (h x (List.mem_cons_self x []))
    | cons y ys =>
      have hx : sep ∉ x := h x (List.mem_cons_self x (y :: ys))
      have hrest : ∀ s ∈ y :: ys, sep ∉ s := fun s hs =>
        h s (List.mem_cons_of_mem x hs)
      calc splitOnChar sep (joinSep sep (x :: y :: ys))
          = splitOnChar sep (x ++ sep :: joinSep sep (y :: ys)) := rfl
        _ = x :: splitOnChar sep (joinSep sep (y :: ys)) :=
            splitOnChar_append sep (joinSep sep (y :: ys)) x hx
        _ = x :: y :: ys := by rw [ih (by simp) hrest]

/-- Counterexample to C7: the identifier-shape validations do not raise a
distinct `InvalidIdentifier` error: a one-segment table identifier fails
with `NoSuchTableError` — the very kind a 404 network response maps to on
`load_table` — and an empty namespace identifier fails with
`NoSuchNamespaceError` — the kind a 404 maps to on `list_tables`. -/
theorem claim_C7_counterexample :
    split_identifier_for_path ([[('t')]]) = Except.error ExcKind.noSuchTable ∧
    selectException load_table_error_handler 404 = ExcKind.noSuchTable ∧
    check_valid_namespace_identifier ([]) = Except.error ExcKind.noSuchNamespace ∧
    selectException list_tables_error_handler 404 = ExcKind.noSuchNamespace := by
  refine ⟨rfl, rfl, rfl, rfl⟩

/-- Claim C7 as amended: the path and JSON encoders fail for every table
identifier with fewer than 2 segments, and the namespace check fails for
namespace identifiers with fewer than 1 segment — but with
`NoSuchTableError` and `NoSuchNamespaceError` respectively, not a
distinct `InvalidIdentifier` error: these are exactly the kinds produced
by 404 network responses on `load_table` and `list_tables`. -/
theorem claim_C7 (identifier : List PyStr) :
    (identifier.length ≤ 1 →
      split_identifier_for_path identifier = Except.error ExcKind.noSuchTable ∧
      split_identifier_for_json identifier = Except.error ExcKind.noSuchTable) ∧
    (identifier.length < 1 →
      check_valid_namespace_identifier identifier
        = Except.error ExcKind.noSuchNamespace) ∧
    selectException load_table_error_handler 404 = ExcKind.noSuchTable ∧
    selectException list_tables_error_handler 404 = ExcKind.noSuchNamespace := by
  refine ⟨?_, ?_, rfl, rfl⟩
  · intro h
    constructor <;>
      simp [split_identifier_for_path, split_identifier_for_json,
        identifier_to_validated_tuple, h]
  · intro h
    simp [check_valid_namespace_identifier, h]

/-- Witness for C7 at concrete short identifiers. -/
theorem claim_C7_witness :
    split_identifier_for_path ([[('t')]]) = Except.error ExcKind.noSuchTable ∧
    split_identifier_for_json ([]) = Except.error ExcKind.noSuchTable ∧
    check_valid_namespace_identifier ([]) = Except.error ExcKind.noSuchNamespace := by
  exact ⟨((claim_C7 ([[('t')]])).1 (by decide)).1,
    ((claim_C7 ([])).1 (by decide)).2,
    (claim_C7 ([])).2.1 (by decide)⟩

/-- Claim C8: for every identifier with at least 2 non-empty segments,
none containing the 0x1F separator, splitting the namespace path produced
by `_split_identifier_for_path` on the separator and appending the leaf
yields exactly the original segment list. -/
theorem claim_C8 (identifier : List PyStr) (hlen : 2 ≤ identifier.length)
    (_hne : ∀ s ∈ identifier, s ≠ ([] : PyStr))
    (hsep : ∀ s ∈ identifier, nsSep ∉ s) :
    ∃ ns leaf, split_identifier_for_path identifier = Except.ok (ns, leaf) ∧
      splitOnChar nsSep ns ++ [leaf] = identifier := by
  have hnil : identifier ≠ [] := by
    intro h
    rw [h] at hlen
    simp at hlen
  have hval : identifier_to_validated_tuple identifier = Except.ok identifier := by
    simp [identifier_to_validated_tuple]
    omega
  refine ⟨joinSep nsSep identifier.dropLast, identifier.getLast?.getD [],
    by simp [split_identifier_for_path, hval], ?_⟩
  have hdropne : identifier.dropLast ≠ [] := by
    intro h
    have := identifier.length_dropLast
    rw [h] at this
    simp at this
    omega
  have hdropsep : ∀ s ∈ identifier.dropLast, nsSep ∉ s := fun s hs =>
    hsep s (identifier.dropLast_sublist.subset hs)
  rw [splitOnChar_joinSep nsSep identifier.dropLast hdropne hdropsep]
  rw [List.getLast?_eq_getLast identifier hnil]
  simp [List.dropLast_append_getLast hnil]

/-- Witness for C8 at the concrete identifier `("a", "b", "c")`: the path
encoding is `("a\x1fb", "c")` and the reconstruction returns the original
segments. -/
theorem claim_C8_witness :
    ∃ ns leaf,
      split_identifier_for_path ([[('a')], [('b')], [('c')]])
        = Except.ok (ns, leaf) ∧
      splitOnChar nsSep ns ++ [leaf] = ([[('a')], [('b')], [('c')]]) := by
  exact claim_C8 ([[('a')], [('b')], [('c')]]) (by decide) (by decide) (by decide)

/-- The credential handling at the top of `_fetch_access_token` (rest.py
lines 292-296): `if SEMICOLON in credential: client_id, client_secret =
credential.split(SEMICOLON) else: client_id, client_secret = None,
credential`.  Python's `split` takes no maxsplit here, so unpacking the
result into two variables raises `ValueError` whenever the credential
contains more than one colon. -/
def parse_credential (credential : PyStr) : Except ExcKind (Option PyStr × PyStr) :=
  if (':') ∈ credential then
    match splitOnChar (':') credential with
    | [client_id, client_secret] => Except.ok (some client_id, client_secret)
    | _ => Except.error ExcKind.valueError
  else Except.ok (none, credential)

/-- Claim C9, evaluated on the code: a colon-free credential is the bare
secret, a single-colon credential splits into client id and secret, but a
credential whose secret itself contains a colon — `client:s:ecret` — does
NOT split at the first colon: `split` yields three parts and the
two-variable unpacking raises `ValueError`. -/
theorem claim_C9 :
    parse_credential (("secret").toList) = Except.ok (none, ("secret").toList) ∧
    parse_credential (("client:secret").toList)
      = Except.ok (some (("client").toList), ("secret").toList) ∧
    parse_credential (("client:s:ecret").toList) = Except.error ExcKind.valueError := by
  refine ⟨rfl, rfl, rfl⟩

/-- The identifier carried by the `Table` built in `_response_to_table`
(rest.py lines 447-449): `(self.name,) + identifier_tuple if self.name
else identifier_tuple` — the catalog name is prepended exactly when it is
truthy, i.e. non-empty. -/
def response_to_table_identifier (name : PyStr) (identifier_tuple : List PyStr) :
    List PyStr :=
  if name ≠ [] then name :: identifier_tuple else identifier_tuple

/-- Claim C10: every table-returning operation (create_table,
register_table, load_table, rename_table) builds its `Table` through
`_response_to_table`; when the catalog was constructed with a non-empty
name, the handle's identifier is the catalog name prepended to the
requested identifier tuple, and only when the catalog name is empty does
the handle carry the bare tuple. -/
theorem claim_C10 (name : PyStr) (identifier_tuple : List PyStr) :
    (name ≠ [] →
      response_to_table_identifier name identifier_tuple = name :: identifier_tuple) ∧
    (name = [] →
      response_to_table_identifier name identifier_tuple = identifier_tuple) := by
  constructor
  · intro h
    simp [response_to_table_identifier, h]
  · intro h
    simp [response_to_table_identifier, h]

/-- Witness for C10 at a concrete catalog name and identifier. -/
theorem claim_C10_witness :
    response_to_table_identifier ([('c')]) ([[('n')], [('t')]])
      = ([[('c')], [('n')], [('t')]]) ∧
    response_to_table_identifier ([]) ([[('n')], [('t')]]) = ([[('n')], [('t')]]) := by
  exact ⟨(claim_C10 ([('c')]) ([[('n')], [('t')]])).1 (by decide),
    (claim_C10 ([]) ([[('n')], [('t')]])).2 rfl⟩

end RestCatalog
